import Mathlib

/-!
Shallow embedding of the `osdctl assist` diagnostic-collection subcommands
(`pruningcronjoberrorsre`, `cluster-provisioning-failure`,
`cluster-monitoring-error-budget-burn-sre`, `dynatrace-monitoring-stack-down-sre`).

Modelling conventions:
* Go strings are modelled as Lean `String` (or `List Char` where Go slices
  bytes); the sources only slice ASCII diagnostic text, so character indexing
  coincides with Go byte indexing on the inputs of interest.
* Subprocess and HTTP effects are made explicit: a collector is a pure value
  recording the cluster-CLI invocations it performs and the bundle files it
  writes; an LLM call is a pure request value plus a pure function of the
  abstract `LLMResponse` (HTTP status and decoded `choices` contents).
* File names recorded in collector models are relative to the output
  directory (the Go sources pass `filepath.Join(o.outputDir, name)`).
-/

namespace Osdctl

/-! ### Go string primitives -/

/-- Character class of Go `unicode.IsSpace` (Unicode White_Space property). -/
def goIsSpace (c : Char) : Bool :=
  c = ' ' || c = '\t' || c = '\n' || c.toNat = 0x0B || c.toNat = 0x0C || c = '\r' ||
  c.toNat = 0x85 || c.toNat = 0xA0 || c.toNat = 0x1680 ||
  (0x2000 ≤ c.toNat && c.toNat ≤ 0x200A) ||
  c.toNat = 0x2028 || c.toNat = 0x2029 || c.toNat = 0x202F || c.toNat = 0x205F ||
  c.toNat = 0x3000

/-- Go `strings.TrimSpace`: drop leading and trailing white space. -/
def goTrimSpace (s : String) : String :=
  ⟨(((s.data.dropWhile goIsSpace).reverse.dropWhile goIsSpace).reverse)⟩

/-- Go `strings.TrimSuffix s suf`. -/
def goTrimSuffix (s suf : String) : String :=
  if suf.data.isSuffixOf s.data then ⟨s.data.take (s.data.length - suf.data.length)⟩ else s

/-- Helper for `goExt`: the suffix of the name starting at its last dot
(empty when there is no dot). -/
def goExtAux : List Char → List Char
  | [] => []
  | c :: rest =>
    let e := goExtAux rest
    if e = [] then (if c = '.' then c :: rest else []) else e

/-- Go `filepath.Ext` restricted to base names (no path separators occur in
the bundle file names). -/
def goExt (s : String) : String := ⟨goExtAux s.data⟩

theorem stringDataAppend (a b : String) : (a ++ b).data = a.data ++ b.data := rfl

/-! ### `validateAPIKey` (shared helper of the assist package) -/

/-- `validateAPIKey` from the assist package: returns `none` when the key is
accepted and `some errorMessage` when rejected. -/
def validateAPIKey (apiKey : String) : Option String :=
  if apiKey = "" then
    some "API key is empty"
  else if goTrimSpace apiKey ≠ apiKey then
    some ("API key contains leading or trailing whitespace (length: " ++
      toString apiKey.length ++ " -> " ++ toString (goTrimSpace apiKey).length ++
      " after trim)")
  else if apiKey.length < 10 then
    some ("API key appears too short (length: " ++ toString apiKey.length ++
      "). Valid API keys are typically longer")
  else
    none

/-! ### `getClusterID` (pruning and monitoring variants compute the same
function of the underlying cluster-CLI call outcome) -/

/-- `getClusterID`: `output` is the combined output of the cluster-CLI call,
`cmdFailed` records whether the call returned an error. The result is the
returned cluster-ID string together with the returned error (always `none`). -/
def getClusterID (output : String) (cmdFailed : Bool) : String × Option String :=
  if cmdFailed then ("N/A", none)
  else
    let clusterID := goTrimSpace output
    if clusterID = "" then ("N/A", none) else (clusterID, none)

/-! ### LLM chat-completion layer -/

/-- A chat message (`Message` struct of the assist package). -/
structure Message where
  role : String
  content : String
deriving DecidableEq

/-- The observable content of one HTTP chat-completion request built by an
`analyzeWithLLM` / `askFollowUpQuestion` function. -/
structure ChatRequest where
  method : String
  url : String
  model : String
  messages : List Message
deriving DecidableEq

/-- Abstract outcome of the HTTP exchange: response status, and the decoded
`choices[i].message.content` list (`none` models a JSON-decode failure). -/
structure LLMResponse where
  status : Nat
  choices : Option (List String)
deriving DecidableEq

/-- LLM configuration carried in the command options. -/
structure LLMOptions where
  llmAPIKey : String
  llmBaseURL : String
  llmModel : String
deriving DecidableEq

/-- Each `analyzeWithLLM` falls back to a hard-coded prompt when the embedded
template is empty. -/
def systemPromptOf (template fallback : String) : String :=
  if template = "" then fallback else template

/-- Fallback system prompt of the pruning command (verbatim from the source). -/
def pruningFallbackSystemPrompt : String :=
  "You are an expert OpenShift/Kubernetes Site Reliability Engineer (SRE) specializing in cluster maintenance and resource management. Your task is to analyze diagnostic information and assess the health of pruning cronjobs in the openshift-sre-pruning namespace on any OpenShift cluster.\n\nAnalyze the provided diagnostic data and provide:\n1. Root cause analysis - What is likely causing any issues?\n2. Key findings - What are the most important issues identified?\n3. Recommended actions - What steps should be taken to resolve the issues?\n4. Priority - Rate the severity (Critical/High/Medium/Low/Healthy)\n\nBe concise but thorough. Focus on actionable insights."

/-- Fallback system prompt of the monitoring command (verbatim). -/
def monitoringFallbackSystemPrompt : String :=
  "You are an expert OpenShift/Kubernetes Site Reliability Engineer (SRE) specializing in cluster monitoring and observability. Your task is to analyze diagnostic information and assess the health of the monitoring cluster operator for the ClusterMonitoringErrorBudgetBurnSRE alert.\n\nAnalyze the provided diagnostic data and provide:\n1. Root cause analysis - What is likely causing the error budget burn?\n2. Key findings - What are the most important issues identified?\n3. Recommended actions - What steps should be taken to resolve the issues?\n4. Priority - Rate the severity (Critical/High/Medium/Low/Healthy)\n\nBe concise but thorough. Focus on actionable insights."

/-- Fallback system prompt of the cluster-provisioning-failure command
(verbatim). -/
def provisioningFallbackSystemPrompt : String :=
  "You are an expert OpenShift/Kubernetes Site Reliability Engineer (SRE) specializing in cluster installation and provisioning. Your task is to analyze diagnostic information and assess cluster provisioning failures on OpenShift clusters.\n\nAnalyze the provided diagnostic data and provide:\n1. Root cause analysis - What is likely causing the cluster provisioning failure?\n2. Key findings - What are the most important issues identified?\n3. Recommended actions - What steps should be taken to resolve the issues?\n4. Priority - Rate the severity (Critical/High/Medium/Low)\n\nFocus on:\n- ClusterOperators that are degraded, unavailable, or progressing\n- Node provisioning issues\n- Machine API problems\n- Infrastructure configuration issues\n- Installation progress and any stuck components\n\nBe concise but thorough. Focus on actionable insights."

/-- Shared response handling of every `analyzeWithLLM` / `askFollowUpQuestion`:
non-200 status is an error, JSON-decode failure is an error, an empty
`choices` list is an error, otherwise the content of the first choice is
returned. (The exact error strings of the sources carry provider diagnostics
that are abbreviated here.) -/
def llmExtractContent (resp : LLMResponse) : Except String String :=
  if resp.status ≠ 200 then
    Except.error ("LLM API returned status " ++ toString resp.status)
  else
    match resp.choices with
    | none => Except.error "failed to decode response"
    | some [] => Except.error "no response from LLM"
    | some (c :: _) => Except.ok c

/-- Request built by the pruning `analyzeWithLLM`
(`src/cmd/assist/pruningcronjoberrorsre.go`): the URL is the raw
concatenation `o.llmBaseURL + "/chat/completions"`. -/
def pruningAnalyzeRequest (o : LLMOptions) (template diag : String) : ChatRequest :=
  { method := "POST"
    url := o.llmBaseURL ++ "/chat/completions"
    model := o.llmModel
    messages :=
      [{ role := "system", content := systemPromptOf template pruningFallbackSystemPrompt },
       { role := "user",
         content := "Please analyze the following pruning cronjob diagnostic information from an OpenShift cluster:\n\n" ++ diag }] }

/-- All HTTP requests performed by one call of the pruning `analyzeWithLLM`
(the function body contains a single `client.Do`). -/
def pruningAnalyzeRequests (o : LLMOptions) (template diag : String) : List ChatRequest :=
  [pruningAnalyzeRequest o template diag]

/-- Request built by the monitoring `analyzeWithLLM`
(`cluster-monitoring-error-budget-burn-sre.go`): trailing slashes of the base
URL are trimmed before appending `/chat/completions`. -/
def monitoringAnalyzeRequest (o : LLMOptions) (template diag : String) : ChatRequest :=
  { method := "POST"
    url := goTrimSuffix o.llmBaseURL "/" ++ "/chat/completions"
    model := o.llmModel
    messages :=
      [{ role := "system", content := systemPromptOf template monitoringFallbackSystemPrompt },
       { role := "user",
         content := "Please analyze the following ClusterMonitoringErrorBudgetBurnSRE diagnostic information from an OpenShift cluster:\n\n" ++ diag }] }

/-- All HTTP requests performed by one call of the monitoring
`analyzeWithLLM`. -/
def monitoringAnalyzeRequests (o : LLMOptions) (template diag : String) : List ChatRequest :=
  [monitoringAnalyzeRequest o template diag]

/-- The seed conversation history built by the provisioning `analyzeWithLLM`
before the request: system prompt followed by the diagnostic user message. -/
def provisioningConversationSeed (template diag : String) : List Message :=
  [{ role := "system", content := systemPromptOf template provisioningFallbackSystemPrompt },
   { role := "user",
     content := "Please analyze the following cluster provisioning failure diagnostic information from an OpenShift cluster:\n\n" ++ diag }]

/-- Request built by the provisioning `analyzeWithLLM`. -/
def provisioningAnalyzeRequest (o : LLMOptions) (template diag : String) : ChatRequest :=
  { method := "POST"
    url := goTrimSuffix o.llmBaseURL "/" ++ "/chat/completions"
    model := o.llmModel
    messages := provisioningConversationSeed template diag }

/-- Result of the provisioning `analyzeWithLLM`: the analysis text and the
conversation history (seed plus assistant answer on success, `nil` on error). -/
def provisioningAnalyzeWithLLM (template diag : String) (resp : LLMResponse) :
    Except String String × List Message :=
  match llmExtractContent resp with
  | Except.ok ans =>
      (Except.ok ans,
        provisioningConversationSeed template diag ++ [{ role := "assistant", content := ans }])
  | Except.error e => (Except.error e, [])

/-- Request built by `askFollowUpQuestion` (provisioning and dynatrace files
share this body): the messages array is the running conversation history with
the new user question appended. -/
def askFollowUpRequest (o : LLMOptions) (hist : List Message) (q : String) : ChatRequest :=
  { method := "POST"
    url := goTrimSuffix o.llmBaseURL "/" ++ "/chat/completions"
    model := o.llmModel
    messages := hist ++ [{ role := "user", content := q }] }

/-- `askFollowUpQuestion`: appends the user question to the history, performs
the request, and on success appends the assistant answer as well; on error the
history with the question appended is returned. -/
def askFollowUpQuestion (hist : List Message) (q : String) (resp : LLMResponse) :
    Except String String × List Message :=
  let hist2 := hist ++ [{ role := "user", content := q }]
  match llmExtractContent resp with
  | Except.ok ans => (Except.ok ans, hist2 ++ [{ role := "assistant", content := ans }])
  | Except.error e => (Except.error e, hist2)

/-! ### Cluster-CLI invocations and collectors -/

/-- One call of the injected command executor/runner. `outFile = some name`
records an executor call writing to `name` inside the output directory;
`outFile = none` records a runner call whose output is captured in memory. -/
structure Invocation where
  subcommand : String
  args : List String
  outFile : Option String
deriving DecidableEq

/-- Static model of one collector function: the cluster-CLI invocations it
performs and the bundle files it writes (via executor output files or
`writeFile`). -/
structure CollectorModel where
  invocations : List Invocation
  files : List String
deriving DecidableEq

/-- The read-only cluster-CLI subcommands named by the specification. -/
def readOnlySubcommands : List String :=
  ["get", "describe", "logs", "adm", "cluster-info"]

/-- Name and `status.phase` of a pod, as decoded from the `-o json` output in
`collectPods`. -/
structure PodInfo where
  name : String
  phase : String
deriving DecidableEq

/-- Failing-pod test of `collectPods`: phase is neither `Succeeded` nor
`Running`. -/
def isFailingPod (p : PodInfo) : Bool :=
  !(p.phase == "Succeeded") && !(p.phase == "Running")

/-- The failing pods collected by `collectPods` (the Go loop accumulates the
names of exactly the pods passing `isFailingPod`, in order). -/
def failingPods (pods : List PodInfo) : List PodInfo :=
  pods.filter isFailingPod

/-- `podsToProcess` of the pruning `collectPods`: the failing pods, or all
pods when no pod is failing. -/
def podsToProcess (pods : List PodInfo) : List PodInfo :=
  if failingPods pods = [] then pods else failingPods pods

/-- Bundle file name `03-pod-logs-<pod>.txt`. -/
def podLogFileName (p : String) : String := "03-pod-logs-" ++ (p ++ ".txt")

/-- Bundle file name `04-pod-describe-<pod>.txt`. -/
def podDescribeFileName (p : String) : String := "04-pod-describe-" ++ (p ++ ".txt")

/-- Bundle file name `12-job-describe-<job>.txt`. -/
def jobDescribeFileName (j : String) : String := "12-job-describe-" ++ (j ++ ".txt")

/-- The `oc logs` invocation of `collectPods` for one processed pod. -/
def podLogInvocation (p : PodInfo) : Invocation :=
  { subcommand := "logs"
    args := [p.name, "-n", "openshift-sre-pruning", "--all-containers=true"]
    outFile := some (podLogFileName p.name) }

/-- The `oc describe pod` invocation of `collectPods` for one processed pod. -/
def podDescribeInvocation (p : PodInfo) : Invocation :=
  { subcommand := "describe"
    args := ["pod", p.name, "-n", "openshift-sre-pruning"]
    outFile := some (podDescribeFileName p.name) }

/-- The `oc describe job` invocation of `collectPods` for one job. -/
def jobDescribeInvocation (j : String) : Invocation :=
  { subcommand := "describe"
    args := ["job", j, "-n", "openshift-sre-pruning"]
    outFile := some (jobDescribeFileName j) }

/-- Pruning `collectJobs`. -/
def collectJobsModel : CollectorModel :=
  { invocations :=
      [{ subcommand := "get", args := ["job", "-n", "openshift-sre-pruning", "-o", "wide"],
         outFile := some "01-jobs.txt" },
       { subcommand := "get", args := ["job", "-n", "openshift-sre-pruning", "-o", "yaml"],
         outFile := some "01-jobs.yaml" }]
    files := ["01-jobs.txt", "01-jobs.yaml"] }

/-- Pruning `collectPods`, parameterized by the decoded pod list and job list
(JSON-decode failure corresponds to the empty lists). -/
def collectPodsModel (pods : List PodInfo) (jobs : List String) : CollectorModel :=
  { invocations :=
      [{ subcommand := "get", args := ["pod", "-n", "openshift-sre-pruning", "-o", "wide"],
         outFile := some "02-pods.txt" },
       { subcommand := "get", args := ["pod", "-n", "openshift-sre-pruning", "-o", "yaml"],
         outFile := some "02-pods.yaml" },
       { subcommand := "get", args := ["pod", "-n", "openshift-sre-pruning", "-o", "json"],
         outFile := none }]
      ++ (podsToProcess pods).flatMap (fun p => [podLogInvocation p, podDescribeInvocation p])
      ++ [{ subcommand := "get", args := ["job", "-n", "openshift-sre-pruning", "-o", "json"],
            outFile := none }]
      ++ jobs.map jobDescribeInvocation
    files :=
      ["02-pods.txt", "02-pods.yaml"]
      ++ (podsToProcess pods).flatMap (fun p => [podLogFileName p.name, podDescribeFileName p.name])
      ++ jobs.map jobDescribeFileName }

/-- Pruning `collectEvents`. -/
def collectEventsModel : CollectorModel :=
  { invocations :=
      [{ subcommand := "get",
         args := ["events", "-n", "openshift-sre-pruning", "--sort-by=.lastTimestamp"],
         outFile := some "05-events.txt" }]
    files := ["05-events.txt"] }

/-- Pruning `collectNetworkInfo`. -/
def collectNetworkInfoModel : CollectorModel :=
  { invocations :=
      [{ subcommand := "get",
         args := ["Network.config.openshift.io", "cluster", "-o", "json"],
         outFile := some "06-network-config.json" }]
    files := ["06-network-config.json"] }

/-- Pruning `collectNodeExporterInfo` (two captured runner calls, node-exporter
lines written with `writeFile`). -/
def collectNodeExporterInfoModel : CollectorModel :=
  { invocations :=
      [{ subcommand := "adm", args := ["top", "pod", "-n", "openshift-monitoring"],
         outFile := none },
       { subcommand := "get", args := ["pod", "-n", "openshift-monitoring", "-o", "wide"],
         outFile := none }]
    files := ["07-node-exporter-cpu.txt", "07-node-exporter-pods.txt"] }

/-- Pruning `collectImageRegistryInfo`. -/
def collectImageRegistryInfoModel : CollectorModel :=
  { invocations :=
      [{ subcommand := "get", args := ["pod", "-n", "openshift-image-registry", "-o", "wide"],
         outFile := some "08-image-registry-pods.txt" },
       { subcommand := "logs",
         args := ["-n", "openshift-image-registry", "-l",
                  "name=cluster-image-registry-operator", "--tail=1000"],
         outFile := none },
       { subcommand := "logs",
         args := ["-n", "openshift-image-registry", "-l",
                  "name=cluster-image-registry-operator", "--tail=500"],
         outFile := some "09-registry-operator-logs.txt" }]
    files := ["08-image-registry-pods.txt", "09-registry-operator-forbidden.txt",
              "09-registry-operator-logs.txt"] }

/-- Pruning `collectResourceQuotas`. -/
def collectResourceQuotasModel : CollectorModel :=
  { invocations :=
      [{ subcommand := "get", args := ["resourcequota", "-n", "openshift-monitoring"],
         outFile := some "10-resource-quotas-monitoring.txt" },
       { subcommand := "get", args := ["resourcequota", "-n", "openshift-sre-pruning"],
         outFile := some "10-resource-quotas-pruning.txt" }]
    files := ["10-resource-quotas-monitoring.txt", "10-resource-quotas-pruning.txt"] }

/-- Pruning `collectOVNInfo`. -/
def collectOVNInfoModel : CollectorModel :=
  { invocations :=
      [{ subcommand := "get",
         args := ["pod", "-n", "openshift-ovn-kubernetes", "-l", "app=ovnkube-master",
                  "-o", "wide"],
         outFile := some "11-ovn-master-pods.txt" }]
    files := ["11-ovn-master-pods.txt"] }

/-- Pruning `collectCronJobInfo`. -/
def collectCronJobInfoModel : CollectorModel :=
  { invocations :=
      [{ subcommand := "get", args := ["cronjob", "-n", "openshift-sre-pruning", "-o", "wide"],
         outFile := some "13-cronjobs.txt" },
       { subcommand := "get", args := ["cronjob", "-n", "openshift-sre-pruning", "-o", "yaml"],
         outFile := some "13-cronjobs.yaml" }]
    files := ["13-cronjobs.txt", "13-cronjobs.yaml"] }

/-- Pruning `collectSeccompErrors` (captured runner call, result written with
`writeFile`). -/
def collectSeccompErrorsModel : CollectorModel :=
  { invocations :=
      [{ subcommand := "get", args := ["pod", "-n", "openshift-sre-pruning", "-o", "json"],
         outFile := none }]
    files := ["14-seccomp-errors.txt"] }

/-- Pruning `collectNodeInfo`. -/
def collectNodeInfoModel : CollectorModel :=
  { invocations :=
      [{ subcommand := "get",
         args := ["pod", "-n", "openshift-sre-pruning", "-o",
           "jsonpath=\x7brange .items[*]\x7d\x7b.metadata.name\x7d\x7b\"\\t\"\x7d\x7b.spec.nodeName\x7d\x7b\"\\n\"\x7d\x7bend\x7d"],
         outFile := some "15-pod-nodes.txt" }]
    files := ["15-pod-nodes.txt"] }

/-- Pruning `collectJobHistory` (captured runner call, result written with
`writeFile`). -/
def collectJobHistoryModel : CollectorModel :=
  { invocations :=
      [{ subcommand := "get", args := ["job", "-n", "openshift-sre-pruning", "-o", "json"],
         outFile := none }]
    files := ["16-job-history.txt"] }

/-- Pruning `collectClusterVersion`. -/
def collectClusterVersionModel : CollectorModel :=
  { invocations :=
      [{ subcommand := "get", args := ["clusterversion", "version", "-o", "yaml"],
         outFile := some "17-cluster-version.yaml" }]
    files := ["17-cluster-version.yaml"] }

/-- The thirteen collectors invoked by the pruning `run`, in call order. -/
def pruningCollectors (pods : List PodInfo) (jobs : List String) : List CollectorModel :=
  [collectJobsModel, collectPodsModel pods jobs, collectEventsModel, collectNetworkInfoModel,
   collectNodeExporterInfoModel, collectImageRegistryInfoModel, collectResourceQuotasModel,
   collectOVNInfoModel, collectCronJobInfoModel, collectSeccompErrorsModel,
   collectNodeInfoModel, collectJobHistoryModel, collectClusterVersionModel]

/-- Monitoring `collectMonitoringOperator`. -/
def mCollectMonitoringOperatorModel : CollectorModel :=
  { invocations :=
      [{ subcommand := "get", args := ["clusteroperator", "monitoring", "-o", "yaml"],
         outFile := some "01-monitoring-clusteroperator.yaml" },
       { subcommand := "get", args := ["clusteroperator", "monitoring", "-o", "wide"],
         outFile := some "01-monitoring-clusteroperator.txt" }]
    files := ["01-monitoring-clusteroperator.yaml", "01-monitoring-clusteroperator.txt"] }

/-- Monitoring `collectMonitoringPods`. -/
def mCollectMonitoringPodsModel : CollectorModel :=
  { invocations :=
      [{ subcommand := "get", args := ["pod", "-n", "openshift-monitoring", "-o", "wide"],
         outFile := some "02-monitoring-pods.txt" },
       { subcommand := "get", args := ["pod", "-n", "openshift-monitoring", "-o", "yaml"],
         outFile := some "02-monitoring-pods.yaml" }]
    files := ["02-monitoring-pods.txt", "02-monitoring-pods.yaml"] }

/-- Monitoring `collectMonitoringEvents`. -/
def mCollectMonitoringEventsModel : CollectorModel :=
  { invocations :=
      [{ subcommand := "get",
         args := ["events", "-n", "openshift-monitoring", "--sort-by=.lastTimestamp"],
         outFile := some "03-monitoring-events.txt" }]
    files := ["03-monitoring-events.txt"] }

/-- Monitoring `collectPrometheusCRDs`. -/
def mCollectPrometheusCRDsModel : CollectorModel :=
  { invocations :=
      [{ subcommand := "get", args := ["prometheus", "-A", "-o", "wide"],
         outFile := some "04-prometheus-crds.txt" },
       { subcommand := "get", args := ["prometheus", "-A", "-o", "yaml"],
         outFile := some "04-prometheus-crds.yaml" }]
    files := ["04-prometheus-crds.txt", "04-prometheus-crds.yaml"] }

/-- Monitoring `collectMonitoringOperatorLogs`. -/
def mCollectMonitoringOperatorLogsModel : CollectorModel :=
  { invocations :=
      [{ subcommand := "logs",
         args := ["-n", "openshift-monitoring", "-l", "app=cluster-monitoring-operator",
                  "--tail=100"],
         outFile := some "05-cmo-logs.txt" },
       { subcommand := "logs",
         args := ["-n", "openshift-monitoring", "-l", "app=cluster-monitoring-operator",
                  "--all-containers=true", "--tail=100"],
         outFile := some "05-cmo-logs-all-containers.txt" }]
    files := ["05-cmo-logs.txt", "05-cmo-logs-all-containers.txt"] }

/-- Monitoring `collectResourceQuotas`. -/
def mCollectResourceQuotasModel : CollectorModel :=
  { invocations :=
      [{ subcommand := "get", args := ["resourcequota", "-n", "openshift-monitoring"],
         outFile := some "06-resource-quotas.txt" }]
    files := ["06-resource-quotas.txt"] }

/-- Monitoring `collectClusterVersion`. -/
def mCollectClusterVersionModel : CollectorModel :=
  { invocations :=
      [{ subcommand := "get", args := ["clusterversion", "version", "-o", "yaml"],
         outFile := some "07-cluster-version.yaml" }]
    files := ["07-cluster-version.yaml"] }

/-- The seven collectors invoked by the monitoring `run`, in call order. -/
def monitoringCollectors : List CollectorModel :=
  [mCollectMonitoringOperatorModel, mCollectMonitoringPodsModel, mCollectMonitoringEventsModel,
   mCollectPrometheusCRDsModel, mCollectMonitoringOperatorLogsModel,
   mCollectResourceQuotasModel, mCollectClusterVersionModel]

/-- Provisioning `collectClusterVersion`. -/
def pCollectClusterVersionModel : CollectorModel :=
  { invocations :=
      [{ subcommand := "get", args := ["clusterversion", "-o", "wide"],
         outFile := some "01-clusterversion.txt" },
       { subcommand := "get", args := ["clusterversion", "version", "-o", "yaml"],
         outFile := some "01-clusterversion.yaml" }]
    files := ["01-clusterversion.txt", "01-clusterversion.yaml"] }

/-- Bundle file name `03-clusteroperator-describe-<operator>.txt`. -/
def coDescribeFileName (co : String) : String :=
  "03-clusteroperator-describe-" ++ (co ++ ".txt")

/-- Provisioning `collectClusterOperators`, parameterized by the operators
found degraded, unavailable, or progressing in the decoded JSON. -/
def pCollectClusterOperatorsModel (degraded : List String) : CollectorModel :=
  { invocations :=
      [{ subcommand := "get", args := ["clusteroperators", "-o", "wide"],
         outFile := some "02-clusteroperators.txt" },
       { subcommand := "get", args := ["clusteroperators", "-o", "yaml"],
         outFile := some "02-clusteroperators.yaml" },
       { subcommand := "get", args := ["clusteroperators", "-o", "json"], outFile := none }]
      ++ degraded.map (fun co =>
           { subcommand := "describe", args := ["clusteroperator", co],
             outFile := some (coDescribeFileName co) })
    files :=
      ["02-clusteroperators.txt", "02-clusteroperators.yaml"]
      ++ degraded.map coDescribeFileName }

/-- Provisioning `collectMachines`. -/
def pCollectMachinesModel : CollectorModel :=
  { invocations :=
      [{ subcommand := "get", args := ["machinesets", "-A", "-o", "wide"],
         outFile := some "04-machinesets.txt" },
       { subcommand := "get", args := ["machinesets", "-A", "-o", "yaml"],
         outFile := some "04-machinesets.yaml" },
       { subcommand := "get", args := ["machines", "-A", "-o", "wide"],
         outFile := some "05-machines.txt" },
       { subcommand := "get", args := ["machines", "-A", "-o", "yaml"],
         outFile := some "05-machines.yaml" }]
    files := ["04-machinesets.txt", "04-machinesets.yaml", "05-machines.txt",
              "05-machines.yaml"] }

/-- Bundle file name `07-node-describe-<node>.txt`. -/
def nodeDescribeFileName (n : String) : String := "07-node-describe-" ++ (n ++ ".txt")

/-- Provisioning `collectNodes`, parameterized by the not-ready nodes found in
the decoded JSON. -/
def pCollectNodesModel (notReady : List String) : CollectorModel :=
  { invocations :=
      [{ subcommand := "get", args := ["nodes", "-o", "wide"], outFile := some "06-nodes.txt" },
       { subcommand := "get", args := ["nodes", "-o", "yaml"], outFile := some "06-nodes.yaml" },
       { subcommand := "get", args := ["nodes", "-o", "json"], outFile := none }]
      ++ notReady.map (fun n =>
           { subcommand := "describe", args := ["node", n],
             outFile := some (nodeDescribeFileName n) })
    files := ["06-nodes.txt", "06-nodes.yaml"] ++ notReady.map nodeDescribeFileName }

/-- Provisioning `collectInfrastructure`. -/
def pCollectInfrastructureModel : CollectorModel :=
  { invocations :=
      [{ subcommand := "get", args := ["infrastructure", "cluster", "-o", "yaml"],
         outFile := some "08-infrastructure.yaml" },
       { subcommand := "get", args := ["dns", "cluster", "-o", "yaml"],
         outFile := some "08-dns.yaml" },
       { subcommand := "get", args := ["network", "cluster", "-o", "yaml"],
         outFile := some "08-network.yaml" }]
    files := ["08-infrastructure.yaml", "08-dns.yaml", "08-network.yaml"] }

/-- Provisioning `collectInstallConfig`. -/
def pCollectInstallConfigModel : CollectorModel :=
  { invocations :=
      [{ subcommand := "get",
         args := ["configmap", "cluster-config-v1", "-n", "kube-system", "-o", "yaml"],
         outFile := some "09-install-config.yaml" }]
    files := ["09-install-config.yaml"] }

/-- The critical namespaces of the provisioning `collectEvents`. -/
def pEventNamespaces : List String :=
  ["openshift-cluster-version", "openshift-machine-api", "openshift-kube-apiserver",
   "openshift-etcd", "openshift-authentication", "openshift-ingress", "kube-system"]

/-- Bundle file name `10-events-<namespace>.txt`. -/
def eventsFileName (ns : String) : String := "10-events-" ++ (ns ++ ".txt")

/-- Provisioning `collectEvents`. -/
def pCollectEventsModel : CollectorModel :=
  { invocations :=
      pEventNamespaces.map (fun ns =>
        { subcommand := "get", args := ["events", "-n", ns, "--sort-by=.lastTimestamp"],
          outFile := some (eventsFileName ns) })
      ++ [{ subcommand := "get", args := ["events", "-A", "--sort-by=.lastTimestamp"],
            outFile := some "10-events-all.txt" }]
    files := pEventNamespaces.map eventsFileName ++ ["10-events-all.txt"] }

/-- The (namespace, label, name) triples of the provisioning
`collectOperatorLogs`. -/
def pOperatorLogTargets : List (String × String × String) :=
  [("openshift-cluster-version", "k8s-app=cluster-version-operator",
    "cluster-version-operator"),
   ("openshift-machine-api", "k8s-app=machine-api-operator", "machine-api-operator"),
   ("openshift-machine-api", "k8s-app=machine-api-controllers", "machine-api-controllers"),
   ("openshift-kube-apiserver-operator", "app=kube-apiserver-operator",
    "kube-apiserver-operator"),
   ("openshift-authentication-operator", "app=authentication-operator",
    "authentication-operator")]

/-- Bundle file name `11-logs-<operator>.txt`. -/
def operatorLogFileName (name : String) : String := "11-logs-" ++ (name ++ ".txt")

/-- Provisioning `collectOperatorLogs`. -/
def pCollectOperatorLogsModel : CollectorModel :=
  { invocations :=
      pOperatorLogTargets.map (fun op =>
        { subcommand := "logs", args := ["-n", op.1, "-l", op.2.1, "--tail=500"],
          outFile := some (operatorLogFileName op.2.2) })
    files := pOperatorLogTargets.map (fun op => operatorLogFileName op.2.2) }

/-- The critical namespaces of the provisioning
`collectPodsInCriticalNamespaces`. -/
def pPodNamespaces : List String :=
  ["openshift-cluster-version", "openshift-machine-api", "openshift-kube-apiserver",
   "openshift-etcd", "openshift-authentication", "openshift-ingress"]

/-- Bundle file name `12-pods-<namespace>.txt`. -/
def podsNsFileName (ns : String) : String := "12-pods-" ++ (ns ++ ".txt")

/-- Provisioning `collectPodsInCriticalNamespaces`. -/
def pCollectPodsInCriticalNamespacesModel : CollectorModel :=
  { invocations :=
      pPodNamespaces.map (fun ns =>
        { subcommand := "get", args := ["pods", "-n", ns, "-o", "wide"],
          outFile := some (podsNsFileName ns) })
    files := pPodNamespaces.map podsNsFileName }

/-- The oc-based collectors of the cluster-provisioning-failure file. (Its
`collectInstallLogs` and `collectClusterInfoViaOCM` run the separate OCM CLI
directly and make no cluster-CLI executor calls.) -/
def provisioningCollectors (degraded notReady : List String) : List CollectorModel :=
  [pCollectClusterVersionModel, pCollectClusterOperatorsModel degraded, pCollectMachinesModel,
   pCollectNodesModel notReady, pCollectInfrastructureModel, pCollectInstallConfigModel,
   pCollectEventsModel, pCollectOperatorLogsModel, pCollectPodsInCriticalNamespacesModel]

/-- Dynatrace `collectDeployments`. -/
def dCollectDeploymentsModel : CollectorModel :=
  { invocations :=
      [{ subcommand := "get", args := ["deploy", "-n", "dynatrace", "-o", "wide"],
         outFile := some "01-deployments.txt" },
       { subcommand := "get", args := ["deploy", "-n", "dynatrace", "-o", "yaml"],
         outFile := some "01-deployments.yaml" }]
    files := ["01-deployments.txt", "01-deployments.yaml"] }

/-- Dynatrace `collectStatefulSets`. -/
def dCollectStatefulSetsModel : CollectorModel :=
  { invocations :=
      [{ subcommand := "get",
         args := ["sts", "-n", "dynatrace", "-l", "app.kubernetes.io/component=activegate",
                  "-o", "wide"],
         outFile := some "02-statefulsets-activegate.txt" },
       { subcommand := "get",
         args := ["sts", "-n", "dynatrace", "-l", "app.kubernetes.io/component=activegate",
                  "-o", "yaml"],
         outFile := some "02-statefulsets-activegate.yaml" }]
    files := ["02-statefulsets-activegate.txt", "02-statefulsets-activegate.yaml"] }

/-- Dynatrace `collectDaemonSets`. -/
def dCollectDaemonSetsModel : CollectorModel :=
  { invocations :=
      [{ subcommand := "get",
         args := ["ds", "-n", "dynatrace", "-l", "app.kubernetes.io/name=oneagent",
                  "-o", "wide"],
         outFile := some "03-daemonsets-oneagent.txt" },
       { subcommand := "get",
         args := ["ds", "-n", "dynatrace", "-l", "app.kubernetes.io/name=oneagent",
                  "-o", "yaml"],
         outFile := some "03-daemonsets-oneagent.yaml" }]
    files := ["03-daemonsets-oneagent.txt", "03-daemonsets-oneagent.yaml"] }

/-- Bundle file name `05-pod-describe-<pod>.txt` (dynatrace). -/
def dPodDescribeFileName (p : String) : String := "05-pod-describe-" ++ (p ++ ".txt")

/-- Dynatrace `collectPods`: describe output is collected only for failing
pods (same failing test as the pruning command). -/
def dCollectPodsModel (pods : List PodInfo) : CollectorModel :=
  { invocations :=
      [{ subcommand := "get", args := ["pod", "-n", "dynatrace", "-o", "wide"],
         outFile := some "04-pods.txt" },
       { subcommand := "get", args := ["pod", "-n", "dynatrace", "-o", "yaml"],
         outFile := some "04-pods.yaml" },
       { subcommand := "get", args := ["pod", "-n", "dynatrace", "-o", "json"],
         outFile := none }]
      ++ (failingPods pods).map (fun p =>
           { subcommand := "describe", args := ["pod", p.name, "-n", "dynatrace"],
             outFile := some (dPodDescribeFileName p.name) })
    files :=
      ["04-pods.txt", "04-pods.yaml"]
      ++ (failingPods pods).map (fun p => dPodDescribeFileName p.name) }

/-- Dynatrace `collectEvents`. -/
def dCollectEventsModel : CollectorModel :=
  { invocations :=
      [{ subcommand := "get", args := ["events", "-n", "dynatrace", "--sort-by=.lastTimestamp"],
         outFile := some "06-events.txt" }]
    files := ["06-events.txt"] }

/-- The (label, labelValue, name) triples of the dynatrace
`collectComponentLogsWithOC` fallback. -/
def dComponentLogTargets : List (String × String × String) :=
  [("app.kubernetes.io/component", "operator", "operator"),
   ("app.kubernetes.io/component", "webhook", "webhook"),
   ("app.kubernetes.io/component", "otel", "otel"),
   ("app.kubernetes.io/component", "activegate", "activegate"),
   ("app.kubernetes.io/name", "oneagent", "oneagent")]

/-- Bundle file name `07-logs-<component>.txt`. -/
def dComponentLogFileName (name : String) : String := "07-logs-" ++ (name ++ ".txt")

/-- Dynatrace `collectComponentLogsWithOC` (the oc fallback; the Dynatrace API
path of `collectComponentLogs` performs no cluster-CLI executor calls). -/
def dCollectComponentLogsWithOCModel : CollectorModel :=
  { invocations :=
      dComponentLogTargets.map (fun comp =>
        { subcommand := "logs",
          args := ["-n", "dynatrace", "-l", comp.1 ++ "=" ++ comp.2.1, "--tail=-1"],
          outFile := some (dComponentLogFileName comp.2.2) })
    files := dComponentLogTargets.map (fun comp => dComponentLogFileName comp.2.2) }

/-- Dynatrace `collectClusterCreationTimestamp` (writes a note file only). -/
def dCollectClusterCreationTimestampModel : CollectorModel :=
  { invocations := []
    files := ["00-cluster-creation-note.txt"] }

/-- The oc-based collectors of the dynatrace file. -/
def dynatraceCollectors (pods : List PodInfo) : List CollectorModel :=
  [dCollectDeploymentsModel, dCollectStatefulSetsModel, dCollectDaemonSetsModel,
   dCollectPodsModel pods, dCollectEventsModel, dCollectComponentLogsWithOCModel,
   dCollectClusterCreationTimestampModel]

/-- Every collector function modelled across the four subcommand files. -/
def allCollectorModels (pods : List PodInfo) (jobs : List String)
    (degraded notReady : List String) (dynPods : List PodInfo) : List CollectorModel :=
  pruningCollectors pods jobs ++ monitoringCollectors ++
    provisioningCollectors degraded notReady ++ dynatraceCollectors dynPods

/-! ### Targets of the detailed pod collection (for the pruning `collectPods`) -/

/-- The pods whose logs a collector model fetches: first argument of each
`logs` invocation. -/
def podLogTargets (c : CollectorModel) : List String :=
  c.invocations.filterMap (fun i => if i.subcommand = "logs" then i.args.head? else none)

/-- The pods a collector model describes: second argument of each
`describe pod` invocation. -/
def podDescribeTargets (c : CollectorModel) : List String :=
  c.invocations.filterMap (fun i =>
    if i.subcommand = "describe" ∧ i.args.head? = some "pod" then i.args[1]? else none)

/-! ### Size limits applied by `extractAndReadDiagnostics` -/

/-- Go `sort.Strings` (any sorted rearrangement; `sort.Strings` sorts
lexicographically in place). -/
def sortStrings (l : List String) : List String :=
  List.insertionSort (fun a b => a ≤ b) l

/-- Pod-log truncation of the pruning `extractAndReadDiagnostics`: keep the
first 10000 bytes and append the truncation marker. -/
def pruningPodLogLimit (logContent : List Char) : List Char :=
  if logContent.length > 10000 then logContent.take 10000 ++ ("\n... (truncated)").data
  else logContent

/-- File-list limit of the pruning `extractAndReadDiagnostics`: sort the glob
results and keep at most the first five (applied to both the pod-log and the
pod-describe lists). -/
def podDiagnosticFilesLimit (files : List String) : List String :=
  (sortStrings files).take 5

/-- Priority-file truncation of the provisioning `extractAndReadDiagnostics`:
install logs over 20000 bytes keep the first and last 10000 bytes with the
middle elided; any other priority file over 15000 bytes is cut at 15000. -/
def provisioningPriorityFileLimit (filename : String) (fileContent : List Char) : List Char :=
  if filename = "01-install-logs.txt" ∧ fileContent.length > 20000 then
    fileContent.take 10000 ++ ("\n\n... (middle section truncated) ...\n\n").data
      ++ fileContent.drop (fileContent.length - 10000)
  else if fileContent.length > 15000 then
    fileContent.take 15000 ++ ("\n... (truncated)").data
  else fileContent

/-- `"\n=== name ===\n" ++ body ++ "\n"` block appended per file read. -/
def sectionBlock (name : String) (body : List Char) : List Char :=
  ("\n=== " ++ name ++ " ===\n").data ++ body ++ ("\n").data

/-- Priority files of the pruning `extractAndReadDiagnostics`. -/
def pruningPriorityFiles : List String :=
  ["00-SUMMARY.txt", "01-jobs.txt", "02-pods.txt", "14-seccomp-errors.txt",
   "16-job-history.txt", "05-events.txt"]

/-- The pruning `extractAndReadDiagnostics`: `fs` maps a bundle file name to
its content when readable, `podLogGlobs` / `podDescribeGlobs` are the glob
results for `03-pod-logs-*.txt` / `04-pod-describe-*.txt`. -/
def pruningExtractDiagnostics (fs : String → Option (List Char))
    (podLogGlobs podDescribeGlobs : List String) : List Char :=
  (pruningPriorityFiles.filterMap (fun n => (fs n).map (sectionBlock n))).flatten
  ++ ((podDiagnosticFilesLimit podLogGlobs).filterMap
        (fun n => (fs n).map (fun d => sectionBlock n (pruningPodLogLimit d)))).flatten
  ++ ((podDiagnosticFilesLimit podDescribeGlobs).filterMap
        (fun n => (fs n).map (sectionBlock n))).flatten

/-! ### Summary generation -/

/-- Extension filter of `generateSummary`: only `.txt`, `.yaml`, `.json`
files are listed. -/
def relevantExtension (f : String) : Bool :=
  goExt f = ".txt" || goExt f = ".yaml" || goExt f = ".json"

/-- The `Files Collected` listing of `generateSummary`: base names of the
directory walk filtered by extension, sorted ascending. -/
def summaryListedFiles (files : List String) : List String :=
  sortStrings (files.filter relevantExtension)

/-- The 52-character `=` rule under the summary title. -/
def summaryRule : String := ⟨List.replicate 52 '='⟩

/-- Header of the pruning summary. -/
def pruningSummaryHeader (date clusterID : String) : String :=
  "PruningCronjobErrorSRE Diagnostic Collection Summary\n" ++ summaryRule ++ "\n" ++
  "Collection Date: " ++ date ++ "\nCluster ID: " ++ clusterID ++
  "\n\nFiles Collected:\n----------------\n"

/-- One listed name per line. -/
def linesBlock (names : List String) : String :=
  String.join (names.map (fun n => n ++ "\n"))

/-- A key-information section that is appended only when the underlying file
was readable. -/
def optSection (header : String) (content : Option String) : String :=
  match content with
  | some c => header ++ c ++ "\n"
  | none => ""

/-- Network-type line of the pruning summary ("Unable to determine" when the
trimmed runner output is empty). -/
def networkTypeDisplay (raw : String) : String :=
  if goTrimSpace raw = "" then "Unable to determine" else goTrimSpace raw

/-- The pruning `generateSummary` text: header, sorted file listing, then
excerpts of the key collected files. `files` is the directory content at
generation time; `jobsContent` / `podsContent` are the readable contents of
`01-jobs.txt` / `02-pods.txt`. -/
def pruningGenerateSummary (date clusterID : String) (files : List String)
    (jobsContent podsContent : Option String) (networkRaw : String) : String :=
  pruningSummaryHeader date clusterID ++ linesBlock (summaryListedFiles files)
  ++ "\nKey Information:\n---------------\n"
  ++ optSection "\nJobs Status:\n" jobsContent
  ++ optSection "\nPods Status:\n" podsContent
  ++ ("\nNetwork Type:\n" ++ networkTypeDisplay networkRaw ++ "\n\n")

/-! ### Bundle contents over the run sequence -/

/-- Bundle files present when the pruning `generateSummary` walks the output
directory: `cluster-info.txt` written by `run` plus the collector outputs.
The summary itself, the tarball, and the LLM analysis file are produced
after this walk. -/
def pruningFilesAtSummary (pods : List PodInfo) (jobs : List String) : List String :=
  "cluster-info.txt" :: ((pruningCollectors pods jobs).map CollectorModel.files).flatten

/-- All files of the finished pruning bundle directory. -/
def pruningBundleFiles (pods : List PodInfo) (jobs : List String) (analyze : Bool) :
    List String :=
  pruningFilesAtSummary pods jobs ++ ["00-SUMMARY.txt"]
    ++ (if analyze then ["18-llm-analysis.txt"] else [])

/-! ### `complete`: default output directory naming -/

/-- Two-digit zero padding of Go time formatting. -/
def pad2 (n : Nat) : String := if n < 10 then "0" ++ toString n else toString n

/-- Four-digit zero padding of Go time formatting. -/
def pad4 (n : Nat) : String :=
  if n < 10 then "000" ++ toString n
  else if n < 100 then "00" ++ toString n
  else if n < 1000 then "0" ++ toString n
  else toString n

/-- Go `time.Format("20060102-150405")` on a broken-down local time. -/
def goTimestampFormat (y mo d h mi s : Nat) : String :=
  pad4 y ++ pad2 mo ++ pad2 d ++ "-" ++ pad2 h ++ pad2 mi ++ pad2 s

/-- Output-directory choice of the pruning `complete` (the command has no
`--analyze-existing` flag): the flag value, or the timestamped default. -/
def pruningCompleteOutputDir (flagValue ts : String) : String :=
  if flagValue = "" then "pruning-cronjob-diagnostics-" ++ ts else flagValue

/-- `true` when the file name begins with a two-digit numeric prefix. -/
def startsWithTwoDigits (s : String) : Bool :=
  match s.data with
  | a :: b :: _ => a.isDigit && b.isDigit
  | _ => false

/-! ### Non-fatal failure handling of the pruning `run` -/

/-- First executor invocation of `collectJobs`. -/
def jobsWideInvocation : Invocation :=
  { subcommand := "get", args := ["job", "-n", "openshift-sre-pruning", "-o", "wide"],
    outFile := some "01-jobs.txt" }

/-- Second executor invocation of `collectJobs`. -/
def jobsYamlInvocation : Invocation :=
  { subcommand := "get", args := ["job", "-n", "openshift-sre-pruning", "-o", "yaml"],
    outFile := some "01-jobs.yaml" }

/-- Terminal messages and returned error of one `collectJobs` call, given the
outcome `ok` of each executor invocation: a failure only prints the failure
marker, both invocations are always attempted, and the function returns `nil`. -/
def collectJobsRun (ok : Invocation → Bool) :
    List Invocation × List String × Except String Unit :=
  ([jobsWideInvocation, jobsYamlInvocation],
   ["Collecting: Jobs in openshift-sre-pruning namespace",
    (if ok jobsWideInvocation then "  ✓ Saved to 01-jobs.txt\n\n"
     else "  ✗ Failed to collect jobs\n\n"),
    "Collecting: Jobs in openshift-sre-pruning namespace (yaml)",
    (if ok jobsYamlInvocation then "  ✓ Saved to 01-jobs.yaml\n\n"
     else "  ✗ Failed to collect jobs yaml\n\n")],
   Except.ok ())

/-- The tarball warning printed by `run` when `createTarball` fails. -/
def tarballWarning : String := "Warning: Failed to create archive"

/-- Result and warning stream of the pruning `run` steps that can fail:
the preliminary steps (directory creation, `oc` lookup, login check, initial
`cluster-info.txt` write) and the summary write abort the run; collector
invocation outcomes (`ok`) and the tarball outcome (`tarOk`) never do. -/
def pruningRunOutcome (mkdirOk ocFound loginOk clusterInfoWriteOk summaryWriteOk : Bool)
    (ok : Invocation → Bool) (tarOk : Bool) : Except String Unit × List String :=
  if ¬mkdirOk then (Except.error "failed to create output directory", [])
  else if ¬ocFound then (Except.error "oc command not found", [])
  else if ¬loginOk then (Except.error "not logged into a cluster", [])
  else if ¬clusterInfoWriteOk then (Except.error "failed to write cluster info", [])
  else if ¬summaryWriteOk then (Except.error "failed to write summary", [])
  else
    (Except.ok (),
     (collectJobsRun ok).2.1 ++ (if tarOk then [] else [tarballWarning]))

/-! ### Theorems -/

/-- Claim C10: `getClusterID` is total and never returns an error: it returns
`("N/A", nil)` when the cluster-CLI call fails or the trimmed output is empty,
and otherwise the trimmed output with a `nil` error, so callers always receive
a non-empty cluster-ID string. -/
theorem getClusterID_total (output : String) (cmdFailed : Bool) :
    (getClusterID output cmdFailed).2 = none ∧
    (getClusterID output cmdFailed).1 ≠ "" ∧
    (cmdFailed = true → (getClusterID output cmdFailed).1 = "N/A") ∧
    (cmdFailed = false → goTrimSpace output = "" →
      (getClusterID output cmdFailed).1 = "N/A") ∧
    (cmdFailed = false → goTrimSpace output ≠ "" →
      (getClusterID output cmdFailed).1 = goTrimSpace output) := by
  cases cmdFailed
  · by_cases h : goTrimSpace output = "" <;> simp [getClusterID, h]
  · simp [getClusterID]

/-- Witness for C10 at a concrete successful call. -/
theorem getClusterID_total_witness :
    (getClusterID " abc " false).2 = none ∧ (getClusterID " abc " false).1 = goTrimSpace " abc " :=
  ⟨(getClusterID_total " abc " false).1,
   (getClusterID_total " abc " false).2.2.2.2 rfl (by decide)⟩

/-- Claim C9: `validateAPIKey` accepts a key iff it is non-empty, equal to its
own trimmed form, and at least 10 characters long; no provider-specific format
is required, and every rejected key yields an error naming the failed check. -/
theorem validateAPIKey_spec (apiKey : String) :
    (validateAPIKey apiKey = none ↔
      (apiKey ≠ "" ∧ goTrimSpace apiKey = apiKey ∧ 10 ≤ apiKey.length)) ∧
    (apiKey = "" → validateAPIKey apiKey = some "API key is empty") ∧
    (apiKey ≠ "" → goTrimSpace apiKey ≠ apiKey →
      validateAPIKey apiKey =
        some ("API key contains leading or trailing whitespace (length: " ++
          toString apiKey.length ++ " -> " ++ toString (goTrimSpace apiKey).length ++
          " after trim)")) ∧
    (apiKey ≠ "" → goTrimSpace apiKey = apiKey → apiKey.length < 10 →
      validateAPIKey apiKey =
        some ("API key appears too short (length: " ++ toString apiKey.length ++
          "). Valid API keys are typically longer")) := by
  by_cases h1 : apiKey = "" <;> by_cases h2 : goTrimSpace apiKey = apiKey <;>
    by_cases h3 : apiKey.length < 10 <;>
    (simp [validateAPIKey, h1, h2, h3]; try omega)

/-- Witness for C9: a ten-character prefix-free key is accepted. -/
theorem validateAPIKey_spec_witness : validateAPIKey "sk-abcdefghijkl" = none :=
  (validateAPIKey_spec "sk-abcdefghijkl").1.mpr ⟨by decide, by decide, by decide⟩

/-- Claim C2: each `analyzeWithLLM` performs exactly one POST request to
`<llm-base-url>/chat/completions`, whose message list is exactly the embedded
system prompt followed by one user message carrying the diagnostic content;
the analysis is the content of the first choice, and an error is returned when
the status is not 200 or the choices list is empty. -/
theorem analyzeWithLLM_spec (o : LLMOptions) (template diag : String) (resp : LLMResponse) :
    (pruningAnalyzeRequests o template diag).length = 1 ∧
    (∀ r ∈ pruningAnalyzeRequests o template diag,
      r.method = "POST" ∧
      r.url = o.llmBaseURL ++ "/chat/completions" ∧
      r.messages =
        [{ role := "system", content := systemPromptOf template pruningFallbackSystemPrompt },
         { role := "user",
           content := "Please analyze the following pruning cronjob diagnostic information from an OpenShift cluster:\n\n" ++ diag }]) ∧
    (monitoringAnalyzeRequests o template diag).length = 1 ∧
    (∀ r ∈ monitoringAnalyzeRequests o template diag,
      r.method = "POST" ∧
      r.url = goTrimSuffix o.llmBaseURL "/" ++ "/chat/completions" ∧
      r.messages =
        [{ role := "system", content := systemPromptOf template monitoringFallbackSystemPrompt },
         { role := "user",
           content := "Please analyze the following ClusterMonitoringErrorBudgetBurnSRE diagnostic information from an OpenShift cluster:\n\n" ++ diag }]) ∧
    (∀ c rest, resp.status = 200 → resp.choices = some (c :: rest) →
      llmExtractContent resp = Except.ok c) ∧
    (resp.status ≠ 200 → ∃ e, llmExtractContent resp = Except.error e) ∧
    (resp.choices = some [] → ∃ e, llmExtractContent resp = Except.error e) := by
  refine ⟨rfl, ?_, rfl, ?_, ?_, ?_, ?_⟩
  · intro r hr
    simp only [pruningAnalyzeRequests, List.mem_singleton] at hr
    subst hr
    exact ⟨rfl, rfl, rfl⟩
  · intro r hr
    simp only [monitoringAnalyzeRequests, List.mem_singleton] at hr
    subst hr
    exact ⟨rfl, rfl, rfl⟩
  · intro c rest h1 h2
    simp [llmExtractContent, h1, h2]
  · intro h
    exact ⟨"LLM API returned status " ++ toString resp.status,
      by simp [llmExtractContent, h]⟩
  · intro h
    by_cases hs : resp.status = 200
    · exact ⟨"no response from LLM", by simp [llmExtractContent, hs, h]⟩
    · exact ⟨"LLM API returned status " ++ toString resp.status,
        by simp [llmExtractContent, hs]⟩

/-- Witness for C2 at a concrete 200-status response with one choice. -/
theorem analyzeWithLLM_spec_witness :
    llmExtractContent { status := 200, choices := some ["analysis"] } = Except.ok "analysis" :=
  (analyzeWithLLM_spec ⟨"k", "https://api.openai.com/v1", "gpt-4o-mini"⟩ "" "diag"
      ⟨200, some ["analysis"]⟩).2.2.2.2.1 "analysis" [] rfl rfl

/-- Claim C1: a successful follow-up turn sends the whole accumulated
transcript (with the new question appended) as the messages array and returns
the transcript extended by exactly the question and the answer; the initial
transcript produced by the analysis pass is system prompt, diagnostic user
message, and first answer. -/
theorem followUp_transcript_spec (o : LLMOptions) (hist : List Message) (q : String)
    (resp : LLMResponse) (c : String) (rest : List String)
    (hs : resp.status = 200) (hc : resp.choices = some (c :: rest)) :
    (askFollowUpRequest o hist q).messages = hist ++ [{ role := "user", content := q }] ∧
    (askFollowUpQuestion hist q resp).1 = Except.ok c ∧
    (askFollowUpQuestion hist q resp).2 =
      hist ++ [{ role := "user", content := q }, { role := "assistant", content := c }] ∧
    (∀ template diag,
      (provisioningAnalyzeWithLLM template diag resp).2 =
        provisioningConversationSeed template diag ++
          [{ role := "assistant", content := c }]) := by
  have he : llmExtractContent resp = Except.ok c := by simp [llmExtractContent, hs, hc]
  refine ⟨rfl, ?_, ?_, ?_⟩
  · simp [askFollowUpQuestion, he]
  · simp [askFollowUpQuestion, he]
  · intro template diag
    simp [provisioningAnalyzeWithLLM, he]

/-- Witness for C1 at a one-message history and a concrete answer. -/
theorem followUp_transcript_witness :
    (askFollowUpQuestion [{ role := "system", content := "s" }] "why"
        { status := 200, choices := some ["because"] }).2 =
      [{ role := "system", content := "s" }, { role := "user", content := "why" },
       { role := "assistant", content := "because" }] := by
  have h := followUp_transcript_spec
    { llmAPIKey := "k", llmBaseURL := "u", llmModel := "m" }
    [{ role := "system", content := "s" }] "why"
    { status := 200, choices := some ["because"] } "because" [] rfl rfl
  simpa using h.2.2.1

/-- Claim C3: diagnostic content is size-limited before sending: pod logs over
10000 bytes are cut at 10000 bytes with a truncation marker, at most five
pod-log and five pod-describe files are included in sorted order, and install
logs over 20000 bytes keep the first and last 10000 bytes with the middle
elided. -/
theorem sizeLimits_spec (s : List Char) (files : List String) :
    (10000 < s.length →
      pruningPodLogLimit s = s.take 10000 ++ ("\n... (truncated)").data) ∧
    (s.length ≤ 10000 → pruningPodLogLimit s = s) ∧
    (podDiagnosticFilesLimit files).length ≤ 5 ∧
    List.Sorted (fun a b => a ≤ b) (podDiagnosticFilesLimit files) ∧
    (∀ f ∈ podDiagnosticFilesLimit files, f ∈ files) ∧
    (20000 < s.length →
      provisioningPriorityFileLimit "01-install-logs.txt" s =
        s.take 10000 ++ ("\n\n... (middle section truncated) ...\n\n").data
          ++ s.drop (s.length - 10000)) := by
  refine ⟨?_, ?_, ?_, ?_, ?_, ?_⟩
  · intro h; simp [pruningPodLogLimit, h]
  · intro h; simp [pruningPodLogLimit, show ¬ (10000 < s.length) by omega]
  · simp [podDiagnosticFilesLimit]
  · exact List.Pairwise.sublist (List.take_sublist 5 _)
      (List.sorted_insertionSort _ files)
  · intro f hf
    exact (List.perm_insertionSort _ files).mem_iff.mp (List.mem_of_mem_take hf)
  · intro h; simp [provisioningPriorityFileLimit, h]

/-- Witness for C3: a 10001-byte log is truncated at 10000 bytes. -/
theorem sizeLimits_witness :
    pruningPodLogLimit (List.replicate 10001 'a') =
      (List.replicate 10001 'a').take 10000 ++ ("\n... (truncated)").data :=
  (sizeLimits_spec (List.replicate 10001 'a') []).1
    (by rw [List.length_replicate]; norm_num)

/-- Claim C8: archiving and individual collection failures are non-fatal: a
failed tarball only prints a warning, a failed collector invocation only
prints the failure marker while both invocations are still attempted and the
collector returns `nil`, and `run` returns `nil` whenever its preliminary
steps succeed, for every combination of collection and tarball outcomes. -/
theorem run_nonfatal_spec (ok : Invocation → Bool) (tarOk : Bool)
    (mkdirOk ocFound loginOk ciOk swOk : Bool)
    (h1 : mkdirOk = true) (h2 : ocFound = true) (h3 : loginOk = true)
    (h4 : ciOk = true) (h5 : swOk = true) :
    (pruningRunOutcome mkdirOk ocFound loginOk ciOk swOk ok tarOk).1 = Except.ok () ∧
    (collectJobsRun ok).2.2 = Except.ok () ∧
    (collectJobsRun ok).1 = [jobsWideInvocation, jobsYamlInvocation] ∧
    (ok jobsWideInvocation = false →
      "  ✗ Failed to collect jobs\n\n" ∈ (collectJobsRun ok).2.1) ∧
    (ok jobsYamlInvocation = false →
      "  ✗ Failed to collect jobs yaml\n\n" ∈ (collectJobsRun ok).2.1) ∧
    (tarOk = false →
      tarballWarning ∈ (pruningRunOutcome mkdirOk ocFound loginOk ciOk swOk ok tarOk).2) := by
  subst h1; subst h2; subst h3; subst h4; subst h5
  refine ⟨by simp [pruningRunOutcome], rfl, rfl, ?_, ?_, ?_⟩
  · intro h; simp [collectJobsRun, h]
  · intro h; simp [collectJobsRun, h]
  · intro h; simp [pruningRunOutcome, h]

/-- Witness for C8: all collector invocations failing and the tarball failing
still yield a successful run, with the archive warning printed. -/
theorem run_nonfatal_witness :
    (pruningRunOutcome true true true true true (fun _ => false) false).1 = Except.ok () ∧
    tarballWarning ∈ (pruningRunOutcome true true true true true (fun _ => false) false).2 :=
  ⟨(run_nonfatal_spec (fun _ => false) false true true true true true rfl rfl rfl rfl rfl).1,
   (run_nonfatal_spec (fun _ => false) false true true true true true
      rfl rfl rfl rfl rfl).2.2.2.2.2 rfl⟩

theorem filterMap_logs_podPairs (ps : List PodInfo) :
    (ps.flatMap (fun p => [podLogInvocation p, podDescribeInvocation p])).filterMap
      (fun i => if i.subcommand = "logs" then i.args.head? else none)
      = ps.map PodInfo.name := by
  induction ps with
  | nil => rfl
  | cons p t ih =>
    rw [List.flatMap_cons, List.filterMap_append, ih]
    rfl

theorem filterMap_describe_podPairs (ps : List PodInfo) :
    (ps.flatMap (fun p => [podLogInvocation p, podDescribeInvocation p])).filterMap
      (fun i =>
        if i.subcommand = "describe" ∧ i.args.head? = some "pod" then i.args[1]? else none)
      = ps.map PodInfo.name := by
  induction ps with
  | nil => rfl
  | cons p t ih =>
    rw [List.flatMap_cons, List.filterMap_append, ih]
    rfl

theorem filterMap_logs_jobInvocations (jobs : List String) :
    (jobs.map jobDescribeInvocation).filterMap
      (fun i => if i.subcommand = "logs" then i.args.head? else none) = [] := by
  induction jobs with
  | nil => rfl
  | cons j t ih =>
    rw [List.map_cons, List.filterMap_cons]
    exact ih

theorem filterMap_describe_jobInvocations (jobs : List String) :
    (jobs.map jobDescribeInvocation).filterMap
      (fun i =>
        if i.subcommand = "describe" ∧ i.args.head? = some "pod" then i.args[1]? else none)
      = [] := by
  induction jobs with
  | nil => rfl
  | cons j t ih =>
    rw [List.map_cons, List.filterMap_cons]
    exact ih

/-- Claim C4: a pod is classified as failing iff its phase is neither
`Succeeded` nor `Running`; logs and describe output are collected for exactly
the failing pods when at least one exists, and for all pods otherwise. -/
theorem collectPods_failing_spec (pods : List PodInfo) (jobs : List String) :
    (∀ p, isFailingPod p = true ↔ (p.phase ≠ "Succeeded" ∧ p.phase ≠ "Running")) ∧
    (∀ p, p ∈ failingPods pods ↔
      (p ∈ pods ∧ p.phase ≠ "Succeeded" ∧ p.phase ≠ "Running")) ∧
    podLogTargets (collectPodsModel pods jobs) = (podsToProcess pods).map PodInfo.name ∧
    podDescribeTargets (collectPodsModel pods jobs) = (podsToProcess pods).map PodInfo.name ∧
    (failingPods pods ≠ [] → podsToProcess pods = failingPods pods) ∧
    (failingPods pods = [] → podsToProcess pods = pods) := by
  refine ⟨?_, ?_, ?_, ?_, ?_, ?_⟩
  · intro p; simp [isFailingPod]
  · intro p; simp [failingPods, List.mem_filter, isFailingPod]
  · show List.filterMap _ _ = _
    rw [collectPodsModel]
    rw [List.filterMap_append, List.filterMap_append, List.filterMap_append,
        filterMap_logs_podPairs, filterMap_logs_jobInvocations]
    simp
  · show List.filterMap _ _ = _
    rw [collectPodsModel]
    rw [List.filterMap_append, List.filterMap_append, List.filterMap_append,
        filterMap_describe_podPairs, filterMap_describe_jobInvocations]
    simp
  · intro h; simp [podsToProcess, h]
  · intro h; simp [podsToProcess, h]

/-- Witness for C4: one failed and one running pod; only the failed pod gets
detailed collection, and `podsToProcess` is the failing list. -/
theorem collectPods_failing_witness :
    podLogTargets (collectPodsModel
      [{ name := "p1", phase := "Failed" }, { name := "p2", phase := "Running" }] []) =
        ["p1"] ∧
    podsToProcess [{ name := "p1", phase := "Failed" }, { name := "p2", phase := "Running" }] =
      failingPods [{ name := "p1", phase := "Failed" }, { name := "p2", phase := "Running" }] := by
  have h := collectPods_failing_spec
    [{ name := "p1", phase := "Failed" }, { name := "p2", phase := "Running" }] []
  refine ⟨?_, h.2.2.2.2.1 (by decide)⟩
  rw [h.2.2.1]
  decide

theorem collectPodsModel_readonly (pods : List PodInfo) (jobs : List String) :
    ∀ inv ∈ (collectPodsModel pods jobs).invocations,
      inv.subcommand ∈ readOnlySubcommands := by
  intro inv hinv
  simp only [collectPodsModel, List.mem_append, List.mem_cons, List.mem_flatMap,
    List.mem_map, List.not_mem_nil, or_false] at hinv
  rcases hinv with (((rfl | rfl | rfl) | ⟨p, _, (rfl | rfl)⟩) | rfl) | ⟨j, _, rfl⟩
  all_goals
    simp [readOnlySubcommands, podLogInvocation, podDescribeInvocation, jobDescribeInvocation]

theorem pCollectClusterOperatorsModel_readonly (degraded : List String) :
    ∀ inv ∈ (pCollectClusterOperatorsModel degraded).invocations,
      inv.subcommand ∈ readOnlySubcommands := by
  intro inv hinv
  simp only [pCollectClusterOperatorsModel, List.mem_append, List.mem_cons,
    List.mem_map, List.not_mem_nil, or_false] at hinv
  rcases hinv with (rfl | rfl | rfl) | ⟨co, _, rfl⟩
  all_goals simp [readOnlySubcommands]

theorem pCollectNodesModel_readonly (notReady : List String) :
    ∀ inv ∈ (pCollectNodesModel notReady).invocations,
      inv.subcommand ∈ readOnlySubcommands := by
  intro inv hinv
  simp only [pCollectNodesModel, List.mem_append, List.mem_cons,
    List.mem_map, List.not_mem_nil, or_false] at hinv
  rcases hinv with (rfl | rfl | rfl) | ⟨n, _, rfl⟩
  all_goals simp [readOnlySubcommands]

theorem dCollectPodsModel_readonly (pods : List PodInfo) :
    ∀ inv ∈ (dCollectPodsModel pods).invocations,
      inv.subcommand ∈ readOnlySubcommands := by
  intro inv hinv
  simp only [dCollectPodsModel, List.mem_append, List.mem_cons,
    List.mem_map, List.not_mem_nil, or_false] at hinv
  rcases hinv with (rfl | rfl | rfl) | ⟨p, _, rfl⟩
  all_goals simp [readOnlySubcommands]

/-- Claim C7: every collector across the four subcommand files passes only
read-only subcommands (`get`, `describe`, `logs`, `adm`, `cluster-info`) to
the executor, and each writes its output to at least one named file in the
bundle. -/
theorem collectors_readonly_spec (pods : List PodInfo) (jobs : List String)
    (degraded notReady : List String) (dynPods : List PodInfo) :
    ∀ c ∈ allCollectorModels pods jobs degraded notReady dynPods,
      (∀ inv ∈ c.invocations, inv.subcommand ∈ readOnlySubcommands) ∧ c.files ≠ [] := by
  intro c hc
  simp only [allCollectorModels, pruningCollectors, monitoringCollectors,
    provisioningCollectors, dynatraceCollectors, List.mem_append, List.mem_cons,
    List.not_mem_nil, or_false] at hc
  rcases hc with (((rfl | rfl | rfl | rfl | rfl | rfl | rfl | rfl | rfl | rfl | rfl | rfl | rfl) |
    (rfl | rfl | rfl | rfl | rfl | rfl | rfl)) |
    (rfl | rfl | rfl | rfl | rfl | rfl | rfl | rfl | rfl)) |
    (rfl | rfl | rfl | rfl | rfl | rfl | rfl)
  all_goals
    first
      | exact ⟨by decide, by decide⟩
      | exact ⟨collectPodsModel_readonly pods jobs, by simp [collectPodsModel]⟩
      | exact ⟨pCollectClusterOperatorsModel_readonly degraded,
          by simp [pCollectClusterOperatorsModel]⟩
      | exact ⟨pCollectNodesModel_readonly notReady, by simp [pCollectNodesModel]⟩
      | exact ⟨dCollectPodsModel_readonly dynPods, by simp [dCollectPodsModel]⟩

/-- Witness for C7: the jobs collector, under empty parameter lists. -/
theorem collectors_readonly_witness :
    (∀ inv ∈ collectJobsModel.invocations, inv.subcommand ∈ readOnlySubcommands) ∧
    collectJobsModel.files ≠ [] :=
  collectors_readonly_spec [] [] [] [] [] collectJobsModel (by decide)

theorem appendNeOfTwoNe (a b t : String) (c1 c2 d1 d2 : Char) (ca cb : List Char)
    (ha : a.data = c1 :: c2 :: ca) (ht : t.data = d1 :: d2 :: cb) (hne : c2 ≠ d2) :
    a ++ b ≠ t := by
  intro h
  have h2 : (a ++ b).data = t.data := by rw [h]
  rw [stringDataAppend, ha, ht] at h2
  simp only [List.cons_append] at h2
  injection h2 with h21 h22
  injection h22 with h23 h24
  exact hne h23

theorem podLogFileName_ne_analysis (p : String) :
    podLogFileName p ≠ "18-llm-analysis.txt" :=
  appendNeOfTwoNe "03-pod-logs-" (p ++ ".txt") "18-llm-analysis.txt" '0' '3' '1' '8'
    ("-pod-logs-").data ("-llm-analysis.txt").data (by decide) (by decide) (by decide)

theorem podDescribeFileName_ne_analysis (p : String) :
    podDescribeFileName p ≠ "18-llm-analysis.txt" :=
  appendNeOfTwoNe "04-pod-describe-" (p ++ ".txt") "18-llm-analysis.txt" '0' '4' '1' '8'
    ("-pod-describe-").data ("-llm-analysis.txt").data (by decide) (by decide) (by decide)

theorem jobDescribeFileName_ne_analysis (j : String) :
    jobDescribeFileName j ≠ "18-llm-analysis.txt" :=
  appendNeOfTwoNe "12-job-describe-" (j ++ ".txt") "18-llm-analysis.txt" '1' '2' '1' '8'
    ("-job-describe-").data ("-llm-analysis.txt").data (by decide) (by decide) (by decide)

theorem startsWithTwoDigits_append (a b : String) (c1 c2 : Char) (ca : List Char)
    (ha : a.data = c1 :: c2 :: ca) (h1 : c1.isDigit = true) (h2 : c2.isDigit = true) :
    startsWithTwoDigits (a ++ b) = true := by
  unfold startsWithTwoDigits
  rw [stringDataAppend, ha]
  simp only [List.cons_append]
  simp [h1, h2]

theorem summaryListedFiles_sorted (files : List String) :
    List.Sorted (fun a b => a ≤ b) (summaryListedFiles files) :=
  List.sorted_insertionSort _ _

theorem mem_summaryListedFiles (files : List String) (n : String) :
    n ∈ summaryListedFiles files ↔ (n ∈ files ∧ relevantExtension n = true) := by
  unfold summaryListedFiles sortStrings
  rw [(List.perm_insertionSort _ _).mem_iff]
  simp [List.mem_filter]

theorem goExtAux_append_tarGz (l : List Char) :
    goExtAux (l ++ (".tar.gz").data) = (".gz").data := by
  induction l with
  | nil => decide
  | cons c t ih =>
    have hne : (".gz").data ≠ ([] : List Char) := by decide
    simp [goExtAux, ih, hne]

theorem relevantExtension_tarGz (d : String) :
    relevantExtension (d ++ ".tar.gz") = false := by
  unfold relevantExtension goExt
  rw [stringDataAppend, goExtAux_append_tarGz]
  decide

theorem pruningFilesAtSummary_cases (pods : List PodInfo) (jobs : List String) (f : String)
    (hf : f ∈ pruningFilesAtSummary pods jobs) :
    f = "cluster-info.txt" ∨
    f ∈ ["01-jobs.txt", "01-jobs.yaml", "02-pods.txt", "02-pods.yaml", "05-events.txt",
         "06-network-config.json", "07-node-exporter-cpu.txt", "07-node-exporter-pods.txt",
         "08-image-registry-pods.txt", "09-registry-operator-forbidden.txt",
         "09-registry-operator-logs.txt", "10-resource-quotas-monitoring.txt",
         "10-resource-quotas-pruning.txt", "11-ovn-master-pods.txt", "13-cronjobs.txt",
         "13-cronjobs.yaml", "14-seccomp-errors.txt", "15-pod-nodes.txt",
         "16-job-history.txt", "17-cluster-version.yaml"] ∨
    (∃ p, f = podLogFileName p ∨ f = podDescribeFileName p) ∨
    (∃ j, f = jobDescribeFileName j) := by
  simp only [pruningFilesAtSummary, pruningCollectors, List.map_cons, List.map_nil,
    List.flatten_cons, List.flatten_nil, collectJobsModel, collectPodsModel,
    collectEventsModel, collectNetworkInfoModel, collectNodeExporterInfoModel,
    collectImageRegistryInfoModel, collectResourceQuotasModel, collectOVNInfoModel,
    collectCronJobInfoModel, collectSeccompErrorsModel, collectNodeInfoModel,
    collectJobHistoryModel, collectClusterVersionModel, List.mem_cons, List.mem_append,
    List.mem_flatMap, List.mem_map, List.not_mem_nil, or_false, List.append_nil] at hf
  simp only [List.mem_cons, List.not_mem_nil, or_false]
  aesop

/-- Claim C5: the summary lists, sorted ascending, the base names of exactly
the `.txt`/`.yaml`/`.json` files present when the summary is generated,
followed by excerpts of the key collected files; the LLM analysis file and
the tarball, created after the listing walk, are not listed. -/
theorem generateSummary_spec (pods : List PodInfo) (jobs : List String)
    (date cid networkRaw : String) (jobsContent podsContent : Option String) :
    List.Sorted (fun a b => a ≤ b)
      (summaryListedFiles (pruningFilesAtSummary pods jobs)) ∧
    (∀ n, n ∈ summaryListedFiles (pruningFilesAtSummary pods jobs) ↔
      (n ∈ pruningFilesAtSummary pods jobs ∧ relevantExtension n = true)) ∧
    "18-llm-analysis.txt" ∉ summaryListedFiles (pruningFilesAtSummary pods jobs) ∧
    (∀ d : String, relevantExtension (d ++ ".tar.gz") = false) ∧
    (∀ c, jobsContent = some c →
      List.IsInfix ("\nJobs Status:\n" ++ c).data
        (pruningGenerateSummary date cid (pruningFilesAtSummary pods jobs)
          jobsContent podsContent networkRaw).data) ∧
    (∀ c, podsContent = some c →
      List.IsInfix ("\nPods Status:\n" ++ c).data
        (pruningGenerateSummary date cid (pruningFilesAtSummary pods jobs)
          jobsContent podsContent networkRaw).data) := by
  refine ⟨summaryListedFiles_sorted _, fun n => mem_summaryListedFiles _ n, ?_,
    relevantExtension_tarGz, ?_, ?_⟩
  · intro h
    have hm := (mem_summaryListedFiles _ _).mp h
    rcases pruningFilesAtSummary_cases pods jobs _ hm.1 with h1 | h2 | ⟨p, (h3 | h3)⟩ | ⟨j, h4⟩
    · exact absurd h1 (by decide)
    · exact absurd h2 (by decide)
    · exact podLogFileName_ne_analysis p h3.symm
    · exact podDescribeFileName_ne_analysis p h3.symm
    · exact jobDescribeFileName_ne_analysis j h4.symm
  · intro c hc
    subst hc
    refine ⟨(pruningSummaryHeader date cid).data ++
        (linesBlock (summaryListedFiles (pruningFilesAtSummary pods jobs))).data ++
        ("\nKey Information:\n---------------\n").data,
      ("\n").data ++ (optSection "\nPods Status:\n" podsContent).data ++
        ("\nNetwork Type:\n" ++ networkTypeDisplay networkRaw ++ "\n\n").data, ?_⟩
    simp only [pruningGenerateSummary, optSection, stringDataAppend, List.append_assoc]
  · intro c hc
    subst hc
    refine ⟨(pruningSummaryHeader date cid).data ++
        (linesBlock (summaryListedFiles (pruningFilesAtSummary pods jobs))).data ++
        ("\nKey Information:\n---------------\n").data ++
        (optSection "\nJobs Status:\n" jobsContent).data,
      ("\n").data ++ ("\nNetwork Type:\n" ++ networkTypeDisplay networkRaw ++ "\n\n").data, ?_⟩
    simp only [pruningGenerateSummary, optSection, stringDataAppend, List.append_assoc]

/-- Witness for C5: with `01-jobs.txt` readable, its content appears in the
generated summary. -/
theorem generateSummary_witness :
    List.IsInfix ("\nJobs Status:\n" ++ "NAME COMPLETIONS").data
      (pruningGenerateSummary "2026-10-11" "cid" (pruningFilesAtSummary [] [])
        (some "NAME COMPLETIONS") none "OVNKubernetes").data :=
  (generateSummary_spec [] [] "2026-10-11" "cid" "OVNKubernetes"
    (some "NAME COMPLETIONS") none).2.2.2.2.1 "NAME COMPLETIONS" rfl

/-- Counterexample to claim C6 as stated: `run` writes `cluster-info.txt`
into the bundle, and that diagnostic file name has no two-digit numeric
prefix. -/
theorem bundleTwoDigit_counterexample :
    "cluster-info.txt" ∈ pruningBundleFiles [] [] true ∧
    startsWithTwoDigits "cluster-info.txt" = false := by
  constructor
  · simp [pruningBundleFiles, pruningFilesAtSummary]
  · decide

/-- Claim C6 (amended): with no `--output-dir`, the output directory is
`pruning-cronjob-diagnostics-` followed by the `20060102-150405`-formatted
time, and every diagnostic file written into the bundle other than
`cluster-info.txt` has a name beginning with a two-digit numeric prefix. -/
theorem bundleNaming_amended (y mo d h mi s : Nat) (pods : List PodInfo)
    (jobs : List String) (analyze : Bool) :
    pruningCompleteOutputDir "" (goTimestampFormat y mo d h mi s) =
      "pruning-cronjob-diagnostics-" ++
        (pad4 y ++ pad2 mo ++ pad2 d ++ "-" ++ pad2 h ++ pad2 mi ++ pad2 s) ∧
    (∀ f ∈ pruningBundleFiles pods jobs analyze,
      f ≠ "cluster-info.txt" → startsWithTwoDigits f = true) := by
  constructor
  · rfl
  · intro f hf hne
    have hcore : f ∈ pruningFilesAtSummary pods jobs ∨ f = "00-SUMMARY.txt" ∨
        f = "18-llm-analysis.txt" := by
      cases analyze <;> simp [pruningBundleFiles] at hf <;> tauto
    rcases hcore with hA | rfl | rfl
    · rcases pruningFilesAtSummary_cases pods jobs f hA with h1 | h2 | ⟨p, (h3 | h3)⟩ | ⟨j, h4⟩
      · exact absurd h1 hne
      · simp only [List.mem_cons, List.not_mem_nil, or_false] at h2
        rcases h2 with rfl | rfl | rfl | rfl | rfl | rfl | rfl | rfl | rfl | rfl | rfl | rfl |
          rfl | rfl | rfl | rfl | rfl | rfl | rfl | rfl <;> decide
      · subst h3
        exact startsWithTwoDigits_append "03-pod-logs-" (p ++ ".txt") '0' '3'
          ("-pod-logs-").data (by decide) (by decide) (by decide)
      · subst h3
        exact startsWithTwoDigits_append "04-pod-describe-" (p ++ ".txt") '0' '4'
          ("-pod-describe-").data (by decide) (by decide) (by decide)
      · subst h4
        exact startsWithTwoDigits_append "12-job-describe-" (j ++ ".txt") '1' '2'
          ("-job-describe-").data (by decide) (by decide) (by decide)
    · decide
    · decide

/-- Witness for C6 (amended) at a concrete timestamp and bundle file. -/
theorem bundleNaming_amended_witness :
    pruningCompleteOutputDir "" (goTimestampFormat 2026 10 11 12 0 0) =
      "pruning-cronjob-diagnostics-" ++
        (pad4 2026 ++ pad2 10 ++ pad2 11 ++ "-" ++ pad2 12 ++ pad2 0 ++ pad2 0) ∧
    startsWithTwoDigits "01-jobs.txt" = true :=
  ⟨(bundleNaming_amended 2026 10 11 12 0 0 [] [] false).1,
   (bundleNaming_amended 2026 10 11 12 0 0 [] [] false).2 "01-jobs.txt"
     (by decide) (by decide)⟩

end Osdctl
